import Mathlib

/-!
Shallow embedding of the provider-locator backend (`backend/server.js`):
the SQL search query over in-memory tables, Postgres ILIKE pattern matching,
tier-based search-origin resolution, cursor pagination, result shaping, the
drug-suggestions query, and the subscription/metering flow of the integration
layer.  Machine reals from the store are modelled as rationals; the PostGIS
distance function is a field of the database value.
-/

namespace MedConnect

/-! ### Postgres ILIKE pattern matching

`likeAux fuel pat s` decides whether string `s` matches LIKE pattern `pat`
case-insensitively: `%` matches any sequence, `_` any single character, a
backslash escapes the next pattern character, and ordinary characters compare
case-insensitively.  The fuel argument makes the recursion structural (so the
kernel can evaluate it); `pat.length + s.length + 1` is always enough fuel. -/
def likeAux : Nat → List Char → List Char → Bool
  | 0, _, _ => false
  | _ + 1, [], s => s.isEmpty
  | f + 1, pc :: ps, [] => if pc = '%' then likeAux f ps [] else false
  | f + 1, pc :: ps, c :: s =>
    if pc = '%' then likeAux f ps (c :: s) || likeAux f (pc :: ps) s
    else if pc = '_' then likeAux f ps s
    else if pc = '\\' then
      match ps with
      | [] => false
      | e :: ps2 => (e.toLower == c.toLower) && likeAux f ps2 s
    else (pc.toLower == c.toLower) && likeAux f ps s

def likeMatches (pat s : List Char) : Bool :=
  likeAux (pat.length + s.length + 1) pat s

/-- Postgres `s ILIKE pat`. -/
def ilike (pat s : String) : Bool :=
  likeMatches pat.data s.data

/-- A pattern character that is not a wildcard and not the escape character. -/
def plainChar (c : Char) : Bool := !(c == '%') && !(c == '_') && !(c == '\\')

/-- A pattern string free of `%`, `_` and the escape character. -/
def wildcardFree (pat : String) : Bool := pat.data.all plainChar

def startsWithChars : List Char → List Char → Bool
  | [], _ => true
  | _ :: _, [] => false
  | c :: q, d :: s => (c == d) && startsWithChars q s

def containsChars : List Char → List Char → Bool
  | q, [] => q.isEmpty
  | q, d :: s => startsWithChars q (d :: s) || containsChars q s

/-- Case-insensitive substring containment of the literal string `q`, the
relation the spec uses for the drug-name filter ("drug/generic name
containing the query case-insensitively").  Spec-side definition, to be
compared with the `ILIKE` behaviour of the code. -/
def specContainsCI (q s : String) : Bool :=
  containsChars (q.data.map Char.toLower) (s.data.map Char.toLower)

/-! ### Data model

Tables of the `rx` database as used by `backend/server.js`: `us_zipcodes`,
`npi_details`, `npi_addresses`, `npi_prescriptions`, `user_locations`.
Nullable SQL columns are `Option`; the PostGIS geometry is a rational point
and the store's `ST_Distance` is carried as a function in the database
value. -/

structure Point where
  x : ℚ
  y : ℚ
deriving DecidableEq

structure ZipRow where
  zip_code : String
  geom : Point
deriving DecidableEq

structure NpiDetail where
  npi : ℕ
  provider_first_name : Option String
  provider_last_name_legal_name : Option String
  npi_deactivation_date : Option String
  provider_credential_text : Option String
  taxonomy_1_classification : Option String
  taxonomy_1_specialization : Option String
deriving DecidableEq

structure NpiAddress where
  npi : ℕ
  practice_address_1 : Option String
  practice_address_2 : Option String
  practice_city : Option String
  practice_state : Option String
  practice_postal_code : Option String
  practice_phone : Option String
deriving DecidableEq

structure NpiPrescription where
  npi : ℕ
  drug_name : Option String
  generic_name : Option String
  total_claim_count : ℤ
deriving DecidableEq

structure Database where
  details : List NpiDetail
  addresses : List NpiAddress
  prescriptions : List NpiPrescription
  zips : List ZipRow
  dist : Point → Point → ℚ

/-- One row of the page query's `SELECT DISTINCT` column tuple
(`server.js` lines 294-303). -/
structure SelectedRow where
  npi : ℕ
  provider_first_name : Option String
  provider_last_name : Option String
  provider_credential_text : Option String
  taxonomy_1_classification : Option String
  taxonomy_1_specialization : Option String
  address_line_1 : Option String
  address_line_2 : Option String
  city : Option String
  state : Option String
  postal_code : Option String
  phone : Option String
  longitude : ℚ
  latitude : ℚ
  distance_meters : ℚ
  total_claim_count : ℤ
deriving DecidableEq

/-- The drug predicate of the `WHERE` clause:
`(np.drug_name ILIKE $3 OR np.generic_name ILIKE $3)` with `$3` bound to the
raw `drugName` request field (no wildcards are added). -/
def drugMatch (drugName : String) (np : NpiPrescription) : Bool :=
  (match np.drug_name with
    | some d => ilike drugName d
    | none => false) ||
  (match np.generic_name with
    | some g => ilike drugName g
    | none => false)

/-- The optional taxonomy predicate:
`nd.healthcare_provider_taxonomy_1_classification ILIKE $n` with the
parameter bound to `'%' + taxonomyClass + '%'`; appended only when the
`taxonomyClass` field is truthy (`server.js` lines 283-286). -/
def taxonomyMatch (taxonomyClass : Option String) (nd : NpiDetail) : Bool :=
  match taxonomyClass with
  | none => true
  | some t =>
    if t = "" then true
    else
      match nd.taxonomy_1_classification with
      | some c => ilike ("%" ++ t ++ "%") c
      | none => false

inductive SortBy where
  | distance
  | claims
  | name
deriving DecidableEq

structure FindParams where
  zipCode : String
  drugName : String
  radiusMiles : ℚ
  minClaims : ℤ
  taxonomyClass : Option String
  sortBy : SortBy
  cursor : Option ℕ
  limit : ℕ
deriving DecidableEq

/-- `SELECT geom FROM us_zipcodes WHERE zip_code = $1 LIMIT 1`. -/
def originOf (db : Database) (zipCode : String) : Option Point :=
  (db.zips.find? (fun uz => uz.zip_code == zipCode)).map (·.geom)

/-- Rational multiplication written through `mkRat` so the kernel can
evaluate it (`Rat.mul` is irreducible); proved equal to `*` below. -/
def ratMul (a b : ℚ) : ℚ := mkRat (a.num * b.num) (a.den * b.den)

/-- Miles are converted with the literal factor of `server.js` line 263:
`radiusMiles * 1609.34`. -/
def mileInMeters : ℚ := mkRat 160934 100

def selectedRowOf (db : Database) (origin : Point) (nd : NpiDetail)
    (na : NpiAddress) (np : NpiPrescription) (uz : ZipRow) : SelectedRow :=
  { npi := nd.npi
    provider_first_name := nd.provider_first_name
    provider_last_name := nd.provider_last_name_legal_name
    provider_credential_text := nd.provider_credential_text
    taxonomy_1_classification := nd.taxonomy_1_classification
    taxonomy_1_specialization := nd.taxonomy_1_specialization
    address_line_1 := na.practice_address_1
    address_line_2 := na.practice_address_2
    city := na.practice_city
    state := na.practice_state
    postal_code := na.practice_postal_code
    phone := na.practice_phone
    longitude := uz.geom.x
    latitude := uz.geom.y
    distance_meters := db.dist uz.geom origin
    total_claim_count := np.total_claim_count }

/-- The joined row set of the shared `baseQuery` (`server.js` lines 274-286):
`npi_details × npi_addresses × npi_prescriptions × us_zipcodes` restricted by
the inner-join conditions and the `WHERE` clause.  Note: there is no
condition on `npi_deactivation_date`. -/
def joinedRows (db : Database) (origin : Point) (radiusMeters : ℚ)
    (drugName : String) (minClaims : ℤ) (taxonomyClass : Option String) :
    List SelectedRow :=
  db.details.flatMap fun nd =>
    db.addresses.flatMap fun na =>
      db.prescriptions.flatMap fun np =>
        db.zips.filterMap fun uz =>
          if nd.npi = na.npi ∧ nd.npi = np.npi ∧
              na.practice_postal_code = some uz.zip_code ∧
              db.dist uz.geom origin ≤ radiusMeters ∧
              drugMatch drugName np = true ∧
              minClaims ≤ np.total_claim_count ∧
              taxonomyMatch taxonomyClass nd = true
          then some (selectedRowOf db origin nd na np uz)
          else none

/-- `ORDER BY` comparison for each sort policy (`server.js` lines 304-308).
SQL `ASC` sorts `NULL` last.  Ties the SQL leaves unspecified are resolved by
the deterministic stable sort of this embedding. -/
def optStrLe (x y : Option String) : Bool :=
  match x, y with
  | none, none => true
  | none, some _ => false
  | some _, none => true
  | some a, some b => a ≤ b

def optStrLt (x y : Option String) : Bool :=
  match x, y with
  | none, _ => false
  | some _, none => true
  | some a, some b => a < b

def sortLe (sb : SortBy) (a b : SelectedRow) : Bool :=
  match sb with
  | .distance => a.distance_meters ≤ b.distance_meters
  | .claims =>
    decide (b.total_claim_count < a.total_claim_count) ||
      (a.total_claim_count == b.total_claim_count &&
        decide (a.distance_meters ≤ b.distance_meters))
  | .name =>
    optStrLt a.provider_last_name b.provider_last_name ||
      (a.provider_last_name == b.provider_last_name &&
        (optStrLt a.provider_first_name b.provider_first_name ||
          (a.provider_first_name == b.provider_first_name &&
            decide (a.distance_meters ≤ b.distance_meters))))

/-- The deduplicated (`SELECT DISTINCT`) and ordered row sequence the page
query paginates over. -/
def sortedDistinctRows (sb : SortBy) (rows : List SelectedRow) :
    List SelectedRow :=
  List.insertionSort (fun a b => sortLe sb a b = true) rows.dedup

/-- `LIMIT $n OFFSET $n+1` (`server.js` lines 309-310). -/
def pageOf (offset limit : ℕ) (rows : List SelectedRow) : List SelectedRow :=
  (rows.drop offset).take limit

/-- Output view built per row by the `formattedData` mapping
(`server.js` lines 318-328).  The mapping selects only these fields:
`phone`, `distance_meters` and `total_claim_count` are not among them;
`rating` and `review_count` read absent row fields, so `|| 0` makes them 0,
and `availability` is the constant placeholder. -/
structure ProviderView where
  id : String
  npi : String
  name : String
  first_name : Option String
  last_name : Option String
  title : String
  specialties : List String
  city : Option String
  state : Option String
  location : String
  rating : ℚ
  review_count : ℚ
  availability : String
  latitude : ℚ
  longitude : ℚ
deriving DecidableEq

def orEmpty (o : Option String) : String :=
  match o with
  | some s => s
  | none => ""

def trimLeftChars : List Char → List Char
  | [] => []
  | c :: s => if c.isWhitespace then trimLeftChars s else c :: s

/-- JavaScript `String.prototype.trim`, written structurally on the
character list so the kernel can evaluate it. -/
def strTrim (s : String) : String :=
  ⟨((trimLeftChars ((trimLeftChars s.data).reverse)).reverse)⟩

/-- JS truthiness for an optional string: `null`/`undefined` and `''` are
falsy. -/
def truthy (o : Option String) : Bool :=
  match o with
  | some s => !(s == "")
  | none => false

/-- The composed address line with its
`.replace(/^, |, $/g, '').trim()` cleanup. -/
def stripLeadingCommaSpace (l : List Char) : List Char :=
  match l with
  | ',' :: ' ' :: rest => rest
  | _ => l

def stripTrailingCommaSpace (l : List Char) : List Char :=
  match l.reverse with
  | ' ' :: ',' :: rest => rest.reverse
  | _ => l

def composeLocation (r : SelectedRow) : String :=
  let raw := orEmpty r.address_line_1 ++
    (match r.address_line_2 with
      | some s => if s = "" then "" else ", " ++ s
      | none => "") ++
    ", " ++ orEmpty r.city ++ ", " ++ orEmpty r.state ++ " " ++
    orEmpty r.postal_code
  strTrim ⟨stripTrailingCommaSpace (stripLeadingCommaSpace raw.data)⟩

/-- `[classification, specialization].filter(Boolean)`. -/
def specialtiesOf (r : SelectedRow) : List String :=
  ([r.taxonomy_1_classification, r.taxonomy_1_specialization].filterMap id).filter
    (fun s => s ≠ "")

def formatRow (r : SelectedRow) : ProviderView :=
  { id := toString r.npi
    npi := toString r.npi
    name := strTrim (orEmpty r.provider_first_name ++ " " ++
      orEmpty r.provider_last_name)
    first_name := r.provider_first_name
    last_name := r.provider_last_name
    title := orEmpty r.provider_credential_text
    specialties := specialtiesOf r
    city := r.city
    state := r.state
    location := composeLocation r
    rating := 0
    review_count := 0
    availability := "N/A"
    latitude := r.latitude
    longitude := r.longitude }

structure SearchResult where
  data : List ProviderView
  totalCount : ℕ
  nextCursor : Option ℕ
deriving DecidableEq

/-- Embedding of `providerService.findProviders` (`server.js` lines 260-331):
origin lookup, the shared filtered join, `COUNT(DISTINCT nd.npi)`, the
`SELECT DISTINCT`/`ORDER BY`/`LIMIT`/`OFFSET` page, `nextCursor` arithmetic
and row formatting. -/
def searchRows (db : Database) (p : FindParams) (origin : Point) :
    List SelectedRow :=
  joinedRows db origin (ratMul p.radiusMiles mileInMeters) p.drugName
    p.minClaims p.taxonomyClass

def findProviders (db : Database) (p : FindParams) :
    Except String SearchResult :=
  let offset := p.cursor.getD 0
  match originOf db p.zipCode with
  | none => .error ("Coordinates not found for zip code " ++ p.zipCode)
  | some origin =>
    let rows := searchRows db p origin
    let totalCount := ((rows.map (·.npi)).dedup).length
    let page := pageOf offset p.limit (sortedDistinctRows p.sortBy rows)
    let nextOffset := offset + page.length
    .ok
      { data := page.map formatRow
        totalCount := totalCount
        nextCursor := if nextOffset < totalCount then some nextOffset else none }

/-! Result accessors used by the concrete theorems (the `Except` wrapper has
no derived decidable equality). -/

def totalCountOf (r : Except String SearchResult) : ℕ :=
  match r with
  | .ok x => x.totalCount
  | .error _ => 0

def dataIdsOf (r : Except String SearchResult) : List String :=
  match r with
  | .ok x => x.data.map (·.id)
  | .error _ => []

def nextCursorOf (r : Except String SearchResult) : Option ℕ :=
  match r with
  | .ok x => x.nextCursor
  | .error _ => none

def isOkResult (r : Except String SearchResult) : Bool :=
  match r with
  | .ok _ => true
  | .error _ => false

/-! ### Tier-based search-origin resolution

`findProvidersHandler` (`server.js` lines 383-403) resolves the zip the
search runs from according to the user's membership tier, after the Joi
schema `findProvidersSchema` (lines 162-172) has validated the body. -/

inductive Tier where
  | basic
  | premium
  | expert
deriving DecidableEq

structure UserLocation where
  location_name : String
  zip_code : String
  is_primary : Bool
deriving DecidableEq

/-- Observable collaborator calls, used to state the metering claims. -/
inductive Effect where
  | dbQuery (tag : String)
  | usageIncrement (qty : ℕ)
  | auditInsert (user endpoint filters : String) (resultCount : ℕ)
deriving DecidableEq

inductive LocError where
  | locationNotFound (label : String)
  | primaryNotFound
deriving DecidableEq

/-- `userService.getUserLocation` (`server.js` lines 241-255): one query on
`user_locations`, narrowed by `is_primary = true` and/or
`location_name = $2` when those options are truthy, `LIMIT 1`; throws a
message containing `not found` when no row matches. -/
def getUserLocation (locs : List UserLocation) (locationName : Option String)
    (isPrimary : Bool) : Except LocError UserLocation :=
  let pred := fun (l : UserLocation) =>
    (!isPrimary || l.is_primary) &&
    (if truthy locationName then l.location_name == locationName.getD ""
      else true)
  match locs.find? pred with
  | some l => .ok l
  | none =>
    .error (if truthy locationName then
      .locationNotFound (locationName.getD "") else .primaryNotFound)

/-- Failure modes of the find-providers route.  `validation` is the Joi
middleware rejection (HTTP 400 before the handler runs); the `notFound`-style
constructors are surfaced with HTTP 404 by the handler's
`message.includes(..)` catch; the rest are handler 400 responses. -/
inductive RouteError where
  | validation
  | locationNameRequired
  | zipRequired (degradedPath : Bool)
  | primaryLocationNotFound
  | locationNotFound (label : String)
  | couldNotDetermine
  | originZipNotFound (zip : String)
deriving DecidableEq

/-- The tier branch of `findProvidersHandler` (`server.js` lines 389-394),
returning the resolved search zip together with the `user_locations` queries
it performed. -/
def resolveSearchZip (tier : Option Tier) (locationName zipCode : Option String)
    (locs : List UserLocation) :
    Except RouteError String × List Effect :=
  match tier with
  | some .basic =>
    (match getUserLocation locs none true with
      | .ok l => .ok l.zip_code
      | .error .primaryNotFound => .error .primaryLocationNotFound
      | .error (.locationNotFound n) => .error (.locationNotFound n),
     [.dbQuery "user_locations"])
  | some .premium =>
    if truthy locationName then
      (match getUserLocation locs locationName false with
        | .ok l => .ok l.zip_code
        | .error .primaryNotFound => .error .primaryLocationNotFound
        | .error (.locationNotFound n) => .error (.locationNotFound n),
       [.dbQuery "user_locations"])
    else (.error .locationNameRequired, [])
  | some .expert =>
    if truthy zipCode then (.ok (zipCode.getD ""), [])
    else (.error (.zipRequired false), [])
  | none =>
    if truthy zipCode then (.ok (zipCode.getD ""), [])
    else (.error (.zipRequired true), [])

structure RequestBody where
  drugName : String
  radiusMiles : ℚ
  minClaims : ℤ
  taxonomyClass : Option String
  sortBy : SortBy
  locationName : Option String
  zipCode : Option String
  cursor : Option ℕ
  limit : ℕ
deriving DecidableEq

/-- The Joi rule `zipCode: Joi.string().pattern(/^\d{5}$/).allow(null, '')`. -/
def zipPatternOk (z : Option String) : Bool :=
  match z with
  | none => true
  | some s => s == "" || (s.length == 5 && s.data.all Char.isDigit)

/-- `findProvidersSchema` (`server.js` lines 162-172); `minClaims` is held as
an integer as in the spec's interface (`acceptedInsurance`/`minRating` are
unused by the query and omitted). -/
def bodyValid (b : RequestBody) : Bool :=
  !(b.drugName == "") &&
  decide (1 ≤ b.radiusMiles) && decide (b.radiusMiles ≤ 100) &&
  decide (0 ≤ b.minClaims) &&
  zipPatternOk b.zipCode &&
  decide (1 ≤ b.limit) && decide (b.limit ≤ 100)

/-- Joi validation followed by the handler's tier branch and the final
`if (!searchZip)` guard (`server.js` line 395). -/
def findProvidersRoute (tier : Option Tier) (locs : List UserLocation)
    (b : RequestBody) : Except RouteError String :=
  if bodyValid b = false then .error .validation
  else
    match (resolveSearchZip tier b.locationName b.zipCode locs).1 with
    | .error e => .error e
    | .ok z => if z = "" then .error .couldNotDetermine else .ok z

def paramsOf (b : RequestBody) (z : String) : FindParams :=
  { zipCode := z
    drugName := b.drugName
    radiusMiles := b.radiusMiles
    minClaims := b.minClaims
    taxonomyClass := b.taxonomyClass
    sortBy := b.sortBy
    cursor := b.cursor
    limit := b.limit }

inductive FlowOutcome where
  | validationFail
  | failure (e : RouteError)
  | success (r : SearchResult)

def isSuccess (o : FlowOutcome) : Bool :=
  match o with
  | .success _ => true
  | _ => false

/-- The complete `/api/find-providers` request flow with its collaborator
calls: Joi validation, the tier lookup on `profiles`, the tier branch, then
`providerService.findProviders`.  The `planMetered` flag of the caller's
subscription is passed in to show the handler never consults it: no usage
or audit effect is ever emitted on this path (`server.js` lines 383-405
contain no metering code). -/
def findProvidersFlow (tier : Option Tier) (locs : List UserLocation)
    (db : Database) (b : RequestBody) (planMetered : Bool) :
    FlowOutcome × List Effect :=
  if bodyValid b = false then (.validationFail, [])
  else
    match (resolveSearchZip tier b.locationName b.zipCode locs).1 with
    | .error e =>
      (.failure e,
       Effect.dbQuery "profiles" ::
        (resolveSearchZip tier b.locationName b.zipCode locs).2)
    | .ok z =>
      if z = "" then
        (.failure .couldNotDetermine,
         Effect.dbQuery "profiles" ::
          (resolveSearchZip tier b.locationName b.zipCode locs).2)
      else
        match findProviders db (paramsOf b z) with
        | .error _ =>
          (.failure (.originZipNotFound z),
           Effect.dbQuery "profiles" ::
            (resolveSearchZip tier b.locationName b.zipCode locs).2 ++
            [.dbQuery "us_zipcodes"])
        | .ok r =>
          (.success r,
           Effect.dbQuery "profiles" ::
            (resolveSearchZip tier b.locationName b.zipCode locs).2 ++
            [.dbQuery "us_zipcodes", .dbQuery "count", .dbQuery "page"])

def isMeterEffect (e : Effect) : Bool :=
  match e with
  | .usageIncrement _ => true
  | .auditInsert _ _ _ _ => true
  | .dbQuery _ => false

def usageCount (l : List Effect) : ℕ :=
  (l.filter fun e => match e with
    | Effect.usageIncrement _ => true
    | _ => false).length

def auditCount (l : List Effect) : ℕ :=
  (l.filter fun e => match e with
    | Effect.auditInsert _ _ _ _ => true
    | _ => false).length

/-! ### Subscription-gated prescriber fetch with metering

`getPrescriberDataWithSubscriptionCheck` from the integration layer: the
active-subscription check, the plan lookup, the tier-limited prescriber
query, and — when the plan is usage-based — one Stripe usage record plus one
`api_usage_logs` insert. -/

structure SubPlan where
  tier : String
  usage_based : Bool
deriving DecidableEq

/-- Collaborator outcomes injected into the metering flow: subscription
rows, plan row, prescriber query result, the Stripe subscription-item
lookup, and whether the usage-record call and the audit insert succeed. -/
structure PrescEnv where
  userId : String
  filtersJson : String
  hasActiveSubscription : Bool
  plan : Option SubPlan
  prescriberData : Except String (List ℕ)
  stripeSubscriptionId : Option String
  stripeItemId : Except String String
  usageRecordOk : Except String Unit
  auditInsertOk : Except String Unit

/-- Embedding of `getPrescriberDataWithSubscriptionCheck`.  The source file
is truncated immediately after the `api_usage_logs` INSERT's parameter list.
Modelled from the spec: the successful return of the fetched rows after the
metering block (spec §4.6: the search result is unchanged by metering), and
the audit row's result count being the fetched row count.  Everything up to
and including the INSERT follows the visible source: the usage-record call
and the insert are awaited inline inside the function's single `try`, so a
failing usage call aborts before the insert. -/
def getPrescriberDataWithSubscriptionCheck (env : PrescEnv) :
    Except String (List ℕ) × List Effect :=
  let t1 := [Effect.dbQuery "user_subscriptions.active"]
  if env.hasActiveSubscription = false then
    (.error "No active subscription found", t1)
  else
    let t2 := t1 ++ [Effect.dbQuery "subscription_plans"]
    match env.plan with
    | none => (.error "Subscription plan not found", t2)
    | some plan =>
      let t3 := t2 ++ [Effect.dbQuery "prescribers"]
      match env.prescriberData with
      | .error e => (.error e, t3)
      | .ok rows =>
        let data := if plan.tier = "basic" then rows.take 100
          else if plan.tier = "professional" then rows.take 1000
          else rows
        if plan.usage_based then
          let t4 := t3 ++ [Effect.dbQuery "user_subscriptions.stripe_id"]
          match env.stripeSubscriptionId with
          | none => (.ok data, t4)
          | some _ =>
            match env.stripeItemId with
            | .error e => (.error e, t4)
            | .ok _ =>
              let t5 := t4 ++ [Effect.usageIncrement 1]
              match env.usageRecordOk with
              | .error e => (.error e, t5)
              | .ok _ =>
                let t6 := t5 ++
                  [Effect.auditInsert env.userId "prescribers"
                    env.filtersJson data.length]
                match env.auditInsertOk with
                | .error e => (.error e, t6)
                | .ok _ => (.ok data, t6)
        else (.ok data, t3)

/-! ### Drug suggestions -/

/-- Embedding of `getDrugSuggestionsHandler`'s query (`server.js` lines
425-455): `UNION` of `drug_name`/`generic_name` rows matching
`ILIKE '%' + q + '%'`, de-duplicated (`UNION`/`DISTINCT`), `LIMIT 10`; the
handler rejects queries shorter than 2 characters first. -/
def getDrugSuggestions (db : Database) (q : String) :
    Except String (List String) :=
  if q.length < 2 then
    .error "Query parameter q must be at least 2 characters long."
  else
    let pat := "%" ++ q ++ "%"
    let drugNames := db.prescriptions.filterMap fun np =>
      match np.drug_name with
      | some d => if ilike pat d then some d else none
      | none => none
    let genericNames := db.prescriptions.filterMap fun np =>
      match np.generic_name with
      | some g => if ilike pat g then some g else none
      | none => none
    .ok (((drugNames ++ genericNames).dedup).take 10)

def suggestionsOf (r : Except String (List String)) : List String :=
  match r with
  | .ok l => l
  | .error _ => []

/-! ### Derived queries and helpers used in the statements -/

/-- The distinct qualifying providers of a search:
`COUNT(DISTINCT nd.npi)` counts exactly this set. -/
def qualifyingNpis (db : Database) (p : FindParams) (origin : Point) :
    Finset ℕ :=
  ((searchRows db p origin).map (·.npi)).toFinset

def searchResultOrDefault (r : Except String SearchResult) : SearchResult :=
  match r with
  | .ok x => x
  | .error _ => { data := [], totalCount := 0, nextCursor := none }

/-! ### Concrete test fixtures -/

def ptO : Point := ⟨0, 0⟩
def ptP : Point := ⟨1, 1⟩

def ndOne : NpiDetail :=
  { npi := 1
    provider_first_name := some "ANA"
    provider_last_name_legal_name := some "DOE"
    npi_deactivation_date := none
    provider_credential_text := some "MD"
    taxonomy_1_classification := some "Psychiatry"
    taxonomy_1_specialization := none }

def naOne : NpiAddress :=
  { npi := 1
    practice_address_1 := some "1 MAIN ST"
    practice_address_2 := none
    practice_city := some "PHILA"
    practice_state := some "PA"
    practice_postal_code := some "11111"
    practice_phone := some "2155551234" }

/-- Provider 1 with two qualifying prescription rows whose claim counts
differ. -/
def dbDup : Database :=
  { details := [ndOne]
    addresses := [naOne]
    prescriptions := [{ npi := 1
                        drug_name := some "SERTRALINE"
                        generic_name := some "SERTRALINE HCL"
                        total_claim_count := 10 },
                      { npi := 1
                        drug_name := some "SERTRALINE"
                        generic_name := some "SERTRALINE HCL"
                        total_claim_count := 20 }]
    zips := [⟨"19104", ptO⟩, ⟨"11111", ptP⟩]
    dist := fun p q => if p = q then 0 else 5 }

def pDup : FindParams :=
  { zipCode := "19104"
    drugName := "SERTRALINE"
    radiusMiles := 10
    minClaims := 0
    taxonomyClass := none
    sortBy := .distance
    cursor := none
    limit := 10 }

/-- A database with no provider data at all (only the origin centroid). -/
def dbEmpty : Database :=
  { details := []
    addresses := []
    prescriptions := []
    zips := [⟨"19104", ptO⟩]
    dist := fun _ _ => 0 }

/-- Provider 7 carries a non-null deactivation date yet matches every
filter of `pDup`. -/
def dbDeact : Database :=
  { details := [{ ndOne with npi := 7
                             npi_deactivation_date := some "2011-09-06" }]
    addresses := [{ naOne with npi := 7 }]
    prescriptions := [{ npi := 7
                        drug_name := some "SERTRALINE"
                        generic_name := none
                        total_claim_count := 12 }]
    zips := [⟨"19104", ptO⟩, ⟨"11111", ptP⟩]
    dist := fun p q => if p = q then 0 else 5 }

/-- Provider 1 prescribes a drug whose name strictly contains
"sertraline". -/
def dbHcl : Database :=
  { details := [ndOne]
    addresses := [naOne]
    prescriptions := [{ npi := 1
                        drug_name := some "SERTRALINE HCL"
                        generic_name := none
                        total_claim_count := 12 }]
    zips := [⟨"19104", ptO⟩, ⟨"11111", ptP⟩]
    dist := fun p q => if p = q then 0 else 5 }

def pSert : FindParams := { pDup with drugName := "sertraline" }

def rowA : SelectedRow :=
  { npi := 1
    provider_first_name := some "ANA"
    provider_last_name := some "DOE"
    provider_credential_text := some "MD"
    taxonomy_1_classification := some "Psychiatry"
    taxonomy_1_specialization := some ""
    address_line_1 := some "1 MAIN ST"
    address_line_2 := none
    city := some "PHILA"
    state := some "PA"
    postal_code := some "19104"
    phone := some "2155551234"
    longitude := 0
    latitude := 0
    distance_meters := 5
    total_claim_count := 10 }

/-- Same provider row except for the fields the mapping drops. -/
def rowB : SelectedRow :=
  { rowA with phone := none
              distance_meters := 999
              total_claim_count := 20 }

def rowNullCity : SelectedRow := { rowA with city := none }

/-- One prescription record whose drug name is "AB". -/
def dbSugg : Database :=
  { details := []
    addresses := []
    prescriptions := [{ npi := 1
                        drug_name := some "AB"
                        generic_name := none
                        total_claim_count := 1 }]
    zips := []
    dist := fun _ _ => 0 }

def geoPr : NpiPrescription :=
  { npi := 1
    drug_name := some "SERTRALINE"
    generic_name := none
    total_claim_count := 12 }

/-- A single qualifying candidate whose practice-zip centroid sits at
distance `d` (in the store's meters) from every other point. -/
def geoDb (d : ℚ) : Database :=
  { details := [ndOne]
    addresses := [naOne]
    prescriptions := [geoPr]
    zips := [⟨"19104", ptO⟩, ⟨"11111", ptP⟩]
    dist := fun p q => if p = q then 0 else d }

def pGeo (r : ℚ) : FindParams := { pDup with radiusMiles := r }

/-- 10.1 miles expressed in the store's native meters. -/
def d101 : ℚ := ratMul (mkRat 101 10) mileInMeters

/-- 9.9 miles expressed in the store's native meters. -/
def d99 : ℚ := ratMul (mkRat 99 10) mileInMeters

def homeLoc : UserLocation :=
  { location_name := "Home"
    zip_code := "19104"
    is_primary := true }

def bodyEx : RequestBody :=
  { drugName := "SERTRALINE"
    radiusMiles := 10
    minClaims := 0
    taxonomyClass := none
    sortBy := .distance
    locationName := none
    zipCode := some "19104"
    cursor := none
    limit := 10 }

def envOk : PrescEnv :=
  { userId := "user-1"
    filtersJson := "state=PA"
    hasActiveSubscription := true
    plan := some { tier := "professional", usage_based := true }
    prescriberData := .ok [1, 2, 3]
    stripeSubscriptionId := some "sub-1"
    stripeItemId := .ok "si-1"
    usageRecordOk := .ok ()
    auditInsertOk := .ok () }

/-! ### Properties of the ILIKE embedding and the unit conversion -/

theorem likeAux_fuel :
    ∀ f g pat s, pat.length + s.length < f → pat.length + s.length < g →
      likeAux f pat s = likeAux g pat s := by
  intro f
  induction f with
  | zero => intro g pat s hf; omega
  | succ f ih =>
    intro g pat s hf hg
    match g, hg with
    | g + 1, hg =>
      match pat, s with
      | [], s => rfl
      | pc :: ps, [] =>
        simp only [List.length_cons, List.length_nil] at hf hg
        simp only [likeAux]
        split_ifs with h1
        · exact ih g ps [] (by simp; omega) (by simp; omega)
        · rfl
      | pc :: ps, c :: s =>
        simp only [List.length_cons] at hf hg
        simp only [likeAux]
        split_ifs with h1 h2 h3
        · rw [ih g ps (c :: s) (by simp; omega) (by simp; omega),
            ih g (pc :: ps) s (by simp; omega) (by simp; omega)]
        · exact ih g ps s (by omega) (by omega)
        · cases ps with
          | nil => rfl
          | cons e ps2 =>
            show (e.toLower == c.toLower && likeAux f ps2 s) =
              (e.toLower == c.toLower && likeAux g ps2 s)
            rw [ih g ps2 s (by simp at hf; omega) (by simp at hg; omega)]
        · rw [ih g ps s (by omega) (by omega)]

theorem likeAux_plain :
    ∀ f pat s, pat.length + s.length < f → pat.all plainChar = true →
      (likeAux f pat s = true ↔ pat.map Char.toLower = s.map Char.toLower) := by
  intro f
  induction f with
  | zero => intro pat s hf; omega
  | succ f ih =>
    intro pat s hf hp
    match pat, s with
    | [], s =>
      simp only [likeAux, List.map_nil, List.isEmpty_iff]
      constructor
      · intro h; simp [h]
      · intro h; exact (List.map_eq_nil_iff.mp h.symm)
    | pc :: ps, [] =>
      have hpc : plainChar pc = true := by
        simp only [List.all_cons, Bool.and_eq_true] at hp; exact hp.1
      have h1 : pc ≠ '%' := by
        intro h; subst h; simp [plainChar] at hpc
      simp [likeAux, h1]
    | pc :: ps, c :: s =>
      simp only [List.all_cons, Bool.and_eq_true] at hp
      have h1 : pc ≠ '%' := by intro h; subst h; simp [plainChar] at hp
      have h2 : pc ≠ '_' := by intro h; subst h; simp [plainChar] at hp
      have h3 : pc ≠ '\\' := by intro h; subst h; simp [plainChar] at hp
      simp only [likeAux, h1, h2, h3, reduceIte, Bool.and_eq_true, beq_iff_eq,
        List.map_cons, List.cons.injEq]
      constructor
      · rintro ⟨hl, hr⟩
        exact ⟨hl, (ih ps s (by simp at hf; omega) hp.2).mp hr⟩
      · rintro ⟨hl, hr⟩
        exact ⟨hl, (ih ps s (by simp at hf; omega) hp.2).mpr hr⟩

theorem likeAux_allpct : ∀ f s, s.length + 1 < f → likeAux f ['%'] s = true := by
  intro f
  induction f with
  | zero => intro s hf; omega
  | succ f ih =>
    intro s hf
    match s with
    | [] =>
      have hpos : 0 < f := by simp at hf; omega
      match f, hpos with
      | f + 1, _ => simp [likeAux]
    | c :: s =>
      simp only [likeAux, if_true, reduceIte, Bool.or_eq_true]
      exact Or.inr (ih s (by simp at hf ⊢; omega))

theorem likeAux_plain_pct :
    ∀ f pat s, pat.length + s.length + 1 < f → pat.all plainChar = true →
      (likeAux f (pat ++ ['%']) s = true ↔
        ∃ m t, s = m ++ t ∧ pat.map Char.toLower = m.map Char.toLower) := by
  intro f
  induction f with
  | zero => intro pat s hf; omega
  | succ f ih =>
    intro pat s hf hp
    match pat, s with
    | [], s =>
      simp only [List.nil_append, List.map_nil]
      constructor
      · intro _; exact ⟨[], s, rfl, rfl⟩
      · intro _
        exact likeAux_allpct (f + 1) s (by simp at hf; omega)
    | pc :: ps, [] =>
      simp only [List.all_cons, Bool.and_eq_true] at hp
      have h1 : pc ≠ '%' := by intro h; subst h; simp [plainChar] at hp
      simp only [List.cons_append, likeAux, h1, reduceIte]
      constructor
      · intro h; exact absurd h (by simp)
      · rintro ⟨m, t, hmt, hmap⟩
        have : m = [] ∧ t = [] := by
          constructor
          · exact List.eq_nil_of_length_eq_zero (by
              have := congrArg List.length hmt
              simp at this; omega)
          · exact List.eq_nil_of_length_eq_zero (by
              have := congrArg List.length hmt
              simp at this; omega)
        rcases this with ⟨hm, _⟩
        subst hm; simp at hmap
    | pc :: ps, c :: s =>
      simp only [List.all_cons, Bool.and_eq_true] at hp
      have h1 : pc ≠ '%' := by intro h; subst h; simp [plainChar] at hp
      have h2 : pc ≠ '_' := by intro h; subst h; simp [plainChar] at hp
      have h3 : pc ≠ '\\' := by intro h; subst h; simp [plainChar] at hp
      simp only [List.cons_append, likeAux, h1, h2, h3, reduceIte,
        Bool.and_eq_true, beq_iff_eq]
      constructor
      · rintro ⟨hc, hr⟩
        rcases (ih ps s (by simp at hf; omega) hp.2).mp hr with ⟨m, t, hmt, hmap⟩
        exact ⟨c :: m, t, by simp [hmt], by simp [hmap, hc]⟩
      · rintro ⟨m, t, hmt, hmap⟩
        match m with
        | [] => simp at hmap
        | mc :: m =>
          simp only [List.map_cons, List.cons.injEq] at hmap
          have hcm : c = mc := by
            have := congrArg (fun l => l.headI) hmt
            simpa using this
          subst hcm
          refine ⟨hmap.1, (ih ps s (by simp at hf; omega) hp.2).mpr ?_⟩
          refine ⟨m, t, ?_, hmap.2⟩
          simpa using hmt

theorem likeAux_pct_plain_pct :
    ∀ f pat s, pat.length + s.length + 2 < f → pat.all plainChar = true →
      (likeAux f ('%' :: (pat ++ ['%'])) s = true ↔
        ∃ a m b, s = a ++ m ++ b ∧ pat.map Char.toLower = m.map Char.toLower) := by
  intro f
  induction f with
  | zero => intro pat s hf; omega
  | succ f ih =>
    intro pat s hf hp
    match s with
    | [] =>
      simp only [likeAux, if_true, reduceIte]
      rw [likeAux_plain_pct f pat [] (by simp at hf ⊢; omega) hp]
      constructor
      · rintro ⟨m, t, hmt, hmap⟩
        exact ⟨[], m, t, by simp [hmt], hmap⟩
      · rintro ⟨a, m, b, hmt, hmap⟩
        have ha : a = [] := List.eq_nil_of_length_eq_zero (by
          have := congrArg List.length hmt; simp at this; omega)
        have hb : b = [] := List.eq_nil_of_length_eq_zero (by
          have := congrArg List.length hmt; simp at this; omega)
        subst ha; subst hb
        exact ⟨m, [], by simpa using hmt, hmap⟩
    | c :: s =>
      simp only [likeAux, if_true, reduceIte, Bool.or_eq_true]
      rw [likeAux_plain_pct f pat (c :: s) (by simp at hf ⊢; omega) hp,
        ih pat s (by simp at hf ⊢; omega) hp]
      constructor
      · rintro (⟨m, t, hmt, hmap⟩ | ⟨a, m, b, hmt, hmap⟩)
        · exact ⟨[], m, t, by simp [hmt], hmap⟩
        · exact ⟨c :: a, m, b, by simp [hmt], hmap⟩
      · rintro ⟨a, m, b, hmt, hmap⟩
        match a with
        | [] =>
          exact Or.inl ⟨m, b, by simpa using hmt, hmap⟩
        | ac :: a =>
          refine Or.inr ⟨a, m, b, ?_, hmap⟩
          have := hmt
          simp only [List.cons_append, List.append_assoc] at this ⊢
          exact (List.cons.injEq _ _ _ _ ▸ this).2

/-- Wildcard-free ILIKE patterns are case-insensitive whole-string equality. -/
theorem ilike_plain (pat s : String) (h : wildcardFree pat = true) :
    (ilike pat s = true ↔
      pat.data.map Char.toLower = s.data.map Char.toLower) :=
  likeAux_plain _ pat.data s.data (by omega) h

/-- `ILIKE` against the pattern `%pat%` with a wildcard-free `pat` is exactly
case-insensitive substring containment. -/
theorem ilike_pct_plain (pat s : String) (h : wildcardFree pat = true) :
    (ilike ("%" ++ pat ++ "%") s = true ↔
      ∃ a m b, s.data = a ++ m ++ b ∧
        pat.data.map Char.toLower = m.map Char.toLower) := by
  have hdata : ("%" ++ pat ++ "%").data = '%' :: (pat.data ++ ['%']) := by
    simp [String.data_append]
  unfold ilike likeMatches
  rw [hdata]
  exact likeAux_pct_plain_pct _ pat.data s.data (by simp; omega) h

theorem ratMul_eq (a b : ℚ) : ratMul a b = a * b := by
  unfold ratMul
  rw [Rat.mkRat_eq_div]
  push_cast
  rw [← div_mul_div_comm, Rat.num_div_den, Rat.num_div_den]

theorem mileInMeters_eq : mileInMeters = (160934 : ℚ) / 100 := by
  unfold mileInMeters
  rw [Rat.mkRat_eq_div]
  norm_num

/-! ### Pagination helpers -/

theorem take_min_self {α : Type} (l : List α) (m : ℕ) :
    l.take (min m l.length) = l.take m := by
  cases Nat.le_total m l.length with
  | inl h => rw [Nat.min_eq_left h]
  | inr h =>
    rw [Nat.min_eq_right h, List.take_of_length_le h,
      List.take_of_length_le (le_refl _)]

theorem pageOf_eq_take_len (L : List SelectedRow) (c limit : ℕ) :
    pageOf c limit L = (L.drop c).take (pageOf c limit L).length := by
  unfold pageOf
  rw [List.length_take]
  exact (take_min_self _ _).symm

theorem pageOf_chain (L : List SelectedRow) (c limit : ℕ) :
    pageOf c limit L ++
      pageOf (c + (pageOf c limit L).length) limit L =
    (L.drop c).take
      ((pageOf c limit L).length +
        (pageOf (c + (pageOf c limit L).length) limit L).length) := by
  rw [List.take_add]
  congr 1
  · exact pageOf_eq_take_len L c limit
  · rw [List.drop_drop]
    exact pageOf_eq_take_len L _ limit

theorem pageOf_disjoint (L : List SelectedRow) (hL : L.Nodup) (c limit : ℕ) :
    ∀ x ∈ pageOf c limit L,
      x ∉ pageOf (c + (pageOf c limit L).length) limit L := by
  intro x hx1 hx2
  have hnodup : (L.drop c).Nodup :=
    List.Nodup.sublist (List.drop_sublist _ _) hL
  rw [← List.take_append_drop (pageOf c limit L).length (L.drop c)] at hnodup
  have hdisj := (List.nodup_append.mp hnodup).2.2
  have hx1t : x ∈ (L.drop c).take (pageOf c limit L).length := by
    rw [← pageOf_eq_take_len]; exact hx1
  have hx2d : x ∈ (L.drop c).drop (pageOf c limit L).length := by
    have hmem : x ∈ L.drop (c + (pageOf c limit L).length) :=
      List.mem_of_mem_take hx2
    rw [List.drop_drop]
    exact hmem
  exact hdisj hx1t hx2d

/-! ### Claim theorems -/

/-- C6: `nextCursor` equals `offset + page length` exactly when that is
below `totalCount` and is `null` exactly when `offset + page length`
reaches `totalCount`; a zero-match search returns an empty page and a null
cursor. -/
theorem nextCursor_policy (db : Database) (p : FindParams) (r : SearchResult)
    (h : findProviders db p = .ok r) :
    (r.nextCursor = some (p.cursor.getD 0 + r.data.length) ↔
      p.cursor.getD 0 + r.data.length < r.totalCount) ∧
    (r.nextCursor = none ↔ r.totalCount ≤ p.cursor.getD 0 + r.data.length) ∧
    (r.totalCount = 0 → r.data = [] ∧ r.nextCursor = none) := by
  unfold findProviders at h
  cases ho : originOf db p.zipCode with
  | none => rw [ho] at h; exact absurd h (by simp)
  | some origin =>
    rw [ho] at h
    simp only [Except.ok.injEq] at h
    subst h
    simp only [List.length_map]
    set rows := searchRows db p origin with hrows
    set tc := ((rows.map (·.npi)).dedup).length with htc
    set page := pageOf (p.cursor.getD 0) p.limit
      (sortedDistinctRows p.sortBy rows) with hpage
    refine ⟨?_, ?_, ?_⟩
    · by_cases hc : p.cursor.getD 0 + page.length < tc <;> simp [hc]
    · by_cases hc : p.cursor.getD 0 + page.length < tc <;> simp [hc] <;> omega
    · intro h0
      have hdedup : (rows.map (·.npi)).dedup = [] := List.length_eq_zero.mp h0
      have hmap : rows.map (·.npi) = [] := (List.dedup_eq_nil _).mp hdedup
      have hrows0 : rows = [] := List.map_eq_nil_iff.mp hmap
      have hsorted : sortedDistinctRows p.sortBy rows = [] := by
        rw [hrows0]; rfl
      have hpage0 : page = [] := by
        rw [hpage, hsorted]; simp [pageOf]
      refine ⟨by simp [hpage0], ?_⟩
      rw [hpage0]
      simp [h0]

/-- C6 witness: a search over a dataset with no matching provider data
returns an empty page and a null cursor. -/
theorem nextCursor_policy_witness :
    (searchResultOrDefault (findProviders dbEmpty pDup)).data = [] ∧
    (searchResultOrDefault (findProviders dbEmpty pDup)).nextCursor = none :=
  (nextCursor_policy dbEmpty pDup _ rfl).2.2 (by decide)

/-- C7: `totalCount` is the cardinality of the set of distinct provider
identifiers with at least one qualifying joined row. -/
theorem totalCount_distinct_npis (db : Database) (p : FindParams)
    (origin : Point) (r : SearchResult)
    (ho : originOf db p.zipCode = some origin)
    (h : findProviders db p = .ok r) :
    r.totalCount = (qualifyingNpis db p origin).card ∧
    (∀ n : ℕ, n ∈ qualifyingNpis db p origin ↔
      ∃ row ∈ searchRows db p origin, row.npi = n) := by
  unfold findProviders at h
  rw [ho] at h
  simp only [Except.ok.injEq] at h
  subst h
  constructor
  · simp only [qualifyingNpis, List.card_toFinset]
  · intro n
    simp [qualifyingNpis, List.mem_toFinset, List.mem_map]

/-- C7 witness: for the two-row single-provider dataset, `totalCount`
equals the distinct-provider count (which is 1, though the page has 2
rows). -/
theorem totalCount_distinct_npis_witness :
    (searchResultOrDefault (findProviders dbDup pDup)).totalCount =
      (qualifyingNpis dbDup pDup ptO).card ∧
    (qualifyingNpis dbDup pDup ptO).card = 1 ∧
    (searchResultOrDefault (findProviders dbDup pDup)).data.length = 2 :=
  ⟨(totalCount_distinct_npis dbDup pDup ptO _ (by decide) rfl).1,
    by decide, by decide⟩

/-- C3 counterexample: with one provider owning two qualifying prescription
rows that differ in claim count, a single page lists the same provider id
twice (`SELECT DISTINCT` dedupes the whole column tuple, not the provider),
while `totalCount` is 1. -/
theorem pagination_duplicate_provider_id :
    dataIdsOf (findProviders dbDup pDup) = ["1", "1"] ∧
    totalCountOf (findProviders dbDup pDup) = 1 := by decide

/-- C3 amended: for a fixed filter set and dataset, every page is the
contiguous segment of the deduplicated, sorted row sequence starting at the
cursor; consecutive pages are adjacent, non-overlapping segments of that
sequence and contain no duplicate row — but distinctness is per selected row
tuple, not per provider id. -/
theorem pages_are_row_segments (db : Database) (p : FindParams)
    (origin : Point) (r : SearchResult)
    (ho : originOf db p.zipCode = some origin)
    (h : findProviders db p = .ok r) :
    r.data = (pageOf (p.cursor.getD 0) p.limit
      (sortedDistinctRows p.sortBy (searchRows db p origin))).map formatRow ∧
    (sortedDistinctRows p.sortBy (searchRows db p origin)).Nodup ∧
    (∀ c : ℕ,
      pageOf c p.limit (sortedDistinctRows p.sortBy (searchRows db p origin)) ++
        pageOf (c + (pageOf c p.limit
          (sortedDistinctRows p.sortBy (searchRows db p origin))).length)
          p.limit (sortedDistinctRows p.sortBy (searchRows db p origin)) =
      ((sortedDistinctRows p.sortBy (searchRows db p origin)).drop c).take
        ((pageOf c p.limit
          (sortedDistinctRows p.sortBy (searchRows db p origin))).length +
          (pageOf (c + (pageOf c p.limit
            (sortedDistinctRows p.sortBy (searchRows db p origin))).length)
            p.limit
            (sortedDistinctRows p.sortBy (searchRows db p origin))).length)) ∧
    (∀ c : ℕ, ∀ x ∈ pageOf c p.limit
        (sortedDistinctRows p.sortBy (searchRows db p origin)),
      x ∉ pageOf (c + (pageOf c p.limit
          (sortedDistinctRows p.sortBy (searchRows db p origin))).length)
        p.limit (sortedDistinctRows p.sortBy (searchRows db p origin))) := by
  have hnodup : (sortedDistinctRows p.sortBy (searchRows db p origin)).Nodup :=
    ((List.perm_insertionSort _ _).nodup_iff).mpr
      (List.nodup_dedup _)
  refine ⟨?_, hnodup, ?_, ?_⟩
  · unfold findProviders at h
    rw [ho] at h
    simp only [Except.ok.injEq] at h
    subst h
    rfl
  · intro c
    exact pageOf_chain _ c p.limit
  · intro c
    exact pageOf_disjoint _ hnodup c p.limit

/-- C3 witness: instantiation of the amended pagination property on the
two-row dataset. -/
theorem pages_are_row_segments_witness :
    (searchResultOrDefault (findProviders dbDup pDup)).data =
      (pageOf (pDup.cursor.getD 0) pDup.limit
        (sortedDistinctRows pDup.sortBy
          (searchRows dbDup pDup ptO))).map formatRow ∧
    (sortedDistinctRows pDup.sortBy (searchRows dbDup pDup ptO)).Nodup := by
  have h := pages_are_row_segments dbDup pDup ptO _ (by decide) rfl
  exact ⟨h.1, h.2.1⟩

/-- C1: the search query contains no predicate on `npi_deactivation_date`
(`server.js` lines 274-286), so a provider whose deactivation date is
non-null but who matches the other filters appears in the page and is
counted in `totalCount`. -/
theorem deactivated_provider_included :
    dbDeact.details.map (·.npi_deactivation_date) = [some "2011-09-06"] ∧
    dataIdsOf (findProviders dbDeact pDup) = ["7"] ∧
    totalCountOf (findProviders dbDeact pDup) = 1 := by decide

/-- C2 counterexample: searching "sertraline" does not match the drug name
"SERTRALINE HCL" although that name contains "sertraline"
case-insensitively — the query binds the raw `drugName` as the ILIKE
pattern without wildcards, so it is an exact case-insensitive match. -/
theorem drug_filter_not_substring :
    specContainsCI "sertraline" "SERTRALINE HCL" = true ∧
    drugMatch "sertraline"
      { npi := 1
        drug_name := some "SERTRALINE HCL"
        generic_name := none
        total_claim_count := 12 } = false ∧
    dataIdsOf (findProviders dbHcl pSert) = [] ∧
    totalCountOf (findProviders dbHcl pSert) = 0 := by decide

/-- C2 amended: a joined row satisfies the drug predicate exactly when the
drug name or generic name matches the requested `drugName` as an ILIKE
pattern; since no wildcards are added, a wildcard-free `drugName` matches
only names that are equal to it up to letter case. -/
theorem drug_filter_exact_ilike (pat : String) (np : NpiPrescription)
    (h : wildcardFree pat = true) :
    drugMatch pat np = true ↔
      ((∃ d, np.drug_name = some d ∧
          pat.data.map Char.toLower = d.data.map Char.toLower) ∨
        (∃ g, np.generic_name = some g ∧
          pat.data.map Char.toLower = g.data.map Char.toLower)) := by
  unfold drugMatch
  rw [Bool.or_eq_true]
  cases hd : np.drug_name <;> cases hg : np.generic_name <;>
    simp [ilike_plain _ _ h]

/-- C2 witness: the exact-match characterisation applied at the pattern
"sertraline" and a concrete prescription row. -/
theorem drug_filter_exact_ilike_witness :
    wildcardFree "sertraline" = true ∧
    (drugMatch "sertraline"
        { npi := 1
          drug_name := some "SERTRALINE"
          generic_name := none
          total_claim_count := 12 } = true ↔
      ((∃ d, (some "SERTRALINE" : Option String) = some d ∧
          "sertraline".data.map Char.toLower = d.data.map Char.toLower) ∨
        (∃ g, (none : Option String) = some g ∧
          "sertraline".data.map Char.toLower = g.data.map Char.toLower))) :=
  ⟨by decide, drug_filter_exact_ilike "sertraline" _ (by decide)⟩

/-- C9 counterexample: the row-to-view mapping drops `phone`,
`distance_meters` and `total_claim_count` (two rows differing only there
format to the same view), and a null `city` is passed through as null. -/
theorem provider_view_drops_fields :
    formatRow rowA = formatRow rowB ∧
    rowA.phone ≠ rowB.phone ∧
    rowA.distance_meters ≠ rowB.distance_meters ∧
    rowA.total_claim_count ≠ rowB.total_claim_count ∧
    (formatRow rowNullCity).city = none := by decide

/-- C9 amended: the provider view carries the composed display name, the
credential text defaulted to the empty string, the specialty list with
empty entries dropped, the coordinates, city/state passed through
(possibly null), and the composed address line; `phone`,
`distance_meters` and `total_claim_count` do not influence the view. -/
theorem provider_view_shape (r : SelectedRow) :
    (formatRow r).name = strTrim (orEmpty r.provider_first_name ++ " " ++
      orEmpty r.provider_last_name) ∧
    (formatRow r).title = orEmpty r.provider_credential_text ∧
    (∀ s ∈ (formatRow r).specialties, s ≠ "" ∧
      (r.taxonomy_1_classification = some s ∨
        r.taxonomy_1_specialization = some s)) ∧
    (formatRow r).latitude = r.latitude ∧
    (formatRow r).longitude = r.longitude ∧
    (formatRow r).city = r.city ∧
    (formatRow r).state = r.state ∧
    (formatRow r).location = composeLocation r ∧
    (∀ ph d cc, formatRow { r with phone := ph
                                   distance_meters := d
                                   total_claim_count := cc } = formatRow r) := by
  refine ⟨rfl, rfl, ?_, rfl, rfl, rfl, rfl, rfl, fun ph d cc => rfl⟩
  intro s hs
  simp only [formatRow, specialtiesOf, List.mem_filter, List.mem_filterMap,
    List.mem_cons, List.mem_singleton, decide_eq_true_eq] at hs
  rcases hs with ⟨⟨o, ho, hid⟩, hne⟩
  subst hid
  rcases ho with ho | ho | ho
  · exact ⟨hne, Or.inl (by rw [← ho])⟩
  · exact ⟨hne, Or.inr (by rw [← ho])⟩
  · cases ho

/-- C10 counterexample: the suggestion query interpolates the raw `q` into
an ILIKE pattern, so a query containing the `_` wildcard returns a name
("AB" for query "a_") that does not contain the query as a substring. -/
theorem suggestions_wildcard_query :
    suggestionsOf (getDrugSuggestions dbSugg "a_") = ["AB"] ∧
    specContainsCI "a_" "AB" = false := by decide

/-- C10 amended: for queries of length at least 2, the suggestions are at
most 10 pairwise-distinct names, each a drug or generic name of some
prescription record matching `ILIKE '%q%'`; when `q` is wildcard-free this
is exactly case-insensitive substring containment. -/
theorem suggestions_amended (db : Database) (q : String) (l : List String)
    (h : getDrugSuggestions db q = .ok l) :
    l.length ≤ 10 ∧ l.Nodup ∧
    ∀ name ∈ l,
      (∃ np ∈ db.prescriptions,
        np.drug_name = some name ∨ np.generic_name = some name) ∧
      ilike ("%" ++ q ++ "%") name = true ∧
      (wildcardFree q = true →
        ∃ a m b, name.data = a ++ m ++ b ∧
          q.data.map Char.toLower = m.map Char.toLower) := by
  unfold getDrugSuggestions at h
  split_ifs at h
  simp only [Except.ok.injEq] at h
  subst h
  refine ⟨List.length_take_le _ _, ?_, ?_⟩
  · exact List.Nodup.sublist (List.take_sublist _ _) (List.nodup_dedup _)
  · intro name hname
    have hmem := (List.mem_dedup).mp (List.mem_of_mem_take hname)
    have hstep :
        (∃ np ∈ db.prescriptions,
          np.drug_name = some name ∨ np.generic_name = some name) ∧
        ilike ("%" ++ q ++ "%") name = true := by
      rcases List.mem_append.mp hmem with hm | hm
      · simp only [List.mem_filterMap] at hm
        rcases hm with ⟨np, hnp, hf⟩
        cases hcol : np.drug_name with
        | none => rw [hcol] at hf; cases hf
        | some d =>
          rw [hcol] at hf
          simp only [] at hf
          split_ifs at hf with hil
          simp only [Option.some.injEq] at hf
          subst hf
          exact ⟨⟨np, hnp, Or.inl hcol⟩, hil⟩
      · simp only [List.mem_filterMap] at hm
        rcases hm with ⟨np, hnp, hf⟩
        cases hcol : np.generic_name with
        | none => rw [hcol] at hf; cases hf
        | some g =>
          rw [hcol] at hf
          simp only [] at hf
          split_ifs at hf with hil
          simp only [Option.some.injEq] at hf
          subst hf
          exact ⟨⟨np, hnp, Or.inr hcol⟩, hil⟩
    refine ⟨hstep.1, hstep.2, fun hwf => ?_⟩
    exact (ilike_pct_plain q name hwf).mp hstep.2

/-- C10 witness: the amended suggestion contract applied to the concrete
one-record database and the query "ab". -/
theorem suggestions_amended_witness :
    (suggestionsOf (getDrugSuggestions dbSugg "ab")).length ≤ 10 ∧
    (suggestionsOf (getDrugSuggestions dbSugg "ab")).Nodup :=
  ⟨(suggestions_amended dbSugg "ab" _ rfl).1,
    (suggestions_amended dbSugg "ab" _ rfl).2.1⟩

/-- C8: the radius is converted by the exact factor 1609.34 meters per
mile, and a candidate qualifies exactly when its practice-zip centroid is
within `radiusMiles * 1609.34` of the origin: for the one-candidate dataset
the count is 1 iff `d ≤ r * 1609.34`, and at `r = 10` a candidate 10.1
miles away is excluded while one 9.9 miles away is included. -/
theorem radius_conversion_boundary :
    (∀ d r : ℚ, totalCountOf (findProviders (geoDb d) (pGeo r)) =
      (if d ≤ r * ((160934 : ℚ) / 100) then 1 else 0)) ∧
    d101 = (101 : ℚ) / 10 * ((160934 : ℚ) / 100) ∧
    d99 = (99 : ℚ) / 10 * ((160934 : ℚ) / 100) ∧
    totalCountOf (findProviders (geoDb d101) (pGeo 10)) = 0 ∧
    totalCountOf (findProviders (geoDb d99) (pGeo 10)) = 1 := by
  refine ⟨?_, ?_, ?_, by decide, by decide⟩
  · intro d r
    have hconv : ratMul r mileInMeters = r * ((160934 : ℚ) / 100) := by
      rw [ratMul_eq, mileInMeters_eq]
    have hpt : ¬ (ptP = ptO) := by decide
    have hdrug : drugMatch "SERTRALINE"
        { npi := 1
          drug_name := some "SERTRALINE"
          generic_name := none
          total_claim_count := 12 } = true := by decide
    by_cases hd : d ≤ r * ((160934 : ℚ) / 100)
    · simp [totalCountOf, findProviders, originOf, searchRows, joinedRows,
        geoDb, pGeo, pDup, taxonomyMatch, hconv, hd, hpt, hdrug, pageOf,
        sortedDistinctRows, selectedRowOf, ndOne, naOne, geoPr]
    · simp [totalCountOf, findProviders, originOf, searchRows, joinedRows,
        geoDb, pGeo, pDup, taxonomyMatch, hconv, hd, hpt, hdrug, pageOf,
        sortedDistinctRows, selectedRowOf, ndOne, naOne, geoPr]
  · show ratMul (mkRat 101 10) mileInMeters = _
    rw [ratMul_eq, mileInMeters_eq]
    norm_num [Rat.mkRat_eq_div]
  · show ratMul (mkRat 99 10) mileInMeters = _
    rw [ratMul_eq, mileInMeters_eq]
    norm_num [Rat.mkRat_eq_div]

/-- C4: tier resolution of the search origin — a basic user's search uses
the flagged-primary saved location and ignores any client zip or label,
failing when no primary exists; a premium user must supply a non-empty
`locationName`, matched exactly against the saved labels; an expert user
(and an unknown/absent tier) must supply a `zipCode` used directly with no
saved-location lookup; a malformed non-5-digit zip is rejected by the Joi
schema before the handler or any query runs. -/
theorem tier_resolution (tier : Option Tier) (locs : List UserLocation)
    (b : RequestBody) :
    (∀ z : String, b.zipCode = some z → z ≠ "" →
      ¬(z.length = 5 ∧ z.data.all Char.isDigit = true) →
      findProvidersRoute tier locs b = .error .validation) ∧
    (tier = some .basic → bodyValid b = true →
      findProvidersRoute tier locs b =
        findProvidersRoute tier locs
          { b with zipCode := none, locationName := none }) ∧
    (tier = some .basic → bodyValid b = true →
      locs.all (fun l => !l.is_primary) = true →
      findProvidersRoute tier locs b = .error .primaryLocationNotFound) ∧
    (∀ l, tier = some .basic → bodyValid b = true →
      locs.find? (fun l => l.is_primary) = some l → l.zip_code ≠ "" →
      findProvidersRoute tier locs b = .ok l.zip_code) ∧
    (tier = some .premium → bodyValid b = true →
      truthy b.locationName = false →
      findProvidersRoute tier locs b = .error .locationNameRequired) ∧
    (∀ n l, tier = some .premium → bodyValid b = true →
      b.locationName = some n → n ≠ "" →
      locs.find? (fun l => l.location_name == n) = some l → l.zip_code ≠ "" →
      findProvidersRoute tier locs b = .ok l.zip_code) ∧
    (∀ n, tier = some .premium → bodyValid b = true →
      b.locationName = some n → n ≠ "" →
      locs.find? (fun l => l.location_name == n) = none →
      findProvidersRoute tier locs b = .error (.locationNotFound n)) ∧
    (∀ z, tier = some .expert → bodyValid b = true →
      b.zipCode = some z → z ≠ "" →
      findProvidersRoute tier locs b = .ok z) ∧
    (tier = some .expert → bodyValid b = true → truthy b.zipCode = false →
      findProvidersRoute tier locs b = .error (.zipRequired false)) ∧
    (∀ locs2, tier = some .expert ∨ tier = none →
      findProvidersRoute tier locs b = findProvidersRoute tier locs2 b) ∧
    (∀ z, tier = none → bodyValid b = true →
      b.zipCode = some z → z ≠ "" →
      findProvidersRoute tier locs b = .ok z) ∧
    (tier = none → bodyValid b = true → truthy b.zipCode = false →
      findProvidersRoute tier locs b = .error (.zipRequired true)) := by
  refine ⟨?_, ?_, ?_, ?_, ?_, ?_, ?_, ?_, ?_, ?_, ?_, ?_⟩
  · -- malformed zip fails Joi validation
    intro z hz hne hbad
    have h5 : (z.length == 5 && z.data.all Char.isDigit) = false := by
      cases hb : (z.length == 5 && z.data.all Char.isDigit) with
      | false => rfl
      | true =>
        rw [Bool.and_eq_true, beq_iff_eq] at hb
        exact absurd ⟨hb.1, hb.2⟩ hbad
    have hz0 : (z == "") = false := by
      cases hb : (z == "") with
      | false => rfl
      | true => rw [beq_iff_eq] at hb; exact absurd hb hne
    have hpat : zipPatternOk b.zipCode = false := by
      rw [hz]
      show (z == "" || (z.length == 5 && z.data.all Char.isDigit)) = false
      rw [h5, hz0]
      rfl
    have hval : bodyValid b = false := by
      unfold bodyValid
      rw [hpat]
      simp
    simp [findProvidersRoute, hval]
  · -- basic ignores client zip and label
    intro ht hv
    subst ht
    have hv2 : bodyValid
        { b with zipCode := none, locationName := none } = true := by
      simp only [bodyValid, zipPatternOk, Bool.and_eq_true] at hv ⊢
      tauto
    simp only [findProvidersRoute, hv, hv2]
    rfl
  · -- basic with no primary location
    intro ht hv hall
    subst ht
    have hfind : locs.find? (fun l => l.is_primary) = none := by
      rw [List.find?_eq_none]
      intro x hx
      have hx2 := (List.all_eq_true.mp hall) x hx
      simp only [Bool.not_eq_true'] at hx2
      simp [hx2]
    simp [findProvidersRoute, hv, resolveSearchZip, getUserLocation, truthy,
      hfind]
  · -- basic with a primary location
    intro l ht hv hfind hzip
    subst ht
    simp [findProvidersRoute, hv, resolveSearchZip, getUserLocation, truthy,
      hfind, hzip]
  · -- premium without a label
    intro ht hv hfalsy
    subst ht
    simp [findProvidersRoute, hv, resolveSearchZip, hfalsy]
  · -- premium with a matching label
    intro n l ht hv hn hne hfind hzip
    subst ht
    simp [findProvidersRoute, hv, resolveSearchZip, getUserLocation, truthy,
      hn, hne, hfind, hzip]
  · -- premium with an unmatched label
    intro n ht hv hn hne hfind
    subst ht
    simp [findProvidersRoute, hv, resolveSearchZip, getUserLocation, truthy,
      hn, hne, hfind]
  · -- expert uses the supplied zip directly
    intro z ht hv hz hne
    subst ht
    simp [findProvidersRoute, hv, resolveSearchZip, truthy, hz, hne]
  · -- expert without a zip
    intro ht hv hfalsy
    subst ht
    simp [findProvidersRoute, hv, resolveSearchZip, hfalsy]
  · -- expert and unknown tiers never consult saved locations
    intro locs2 ht
    rcases ht with ht | ht <;> subst ht <;> rfl
  · -- unknown tier uses the supplied zip directly
    intro z ht hv hz hne
    subst ht
    simp [findProvidersRoute, hv, resolveSearchZip, truthy, hz, hne]
  · -- unknown tier without a zip
    intro ht hv hfalsy
    subst ht
    simp [findProvidersRoute, hv, resolveSearchZip, hfalsy]

/-- C4 witness: a basic user with one primary saved location searches from
its zip, and an expert user sending the 3-digit zip "123" is rejected by
validation. -/
theorem tier_resolution_witness :
    findProvidersRoute (some .basic) [homeLoc] bodyEx = .ok homeLoc.zip_code ∧
    findProvidersRoute (some .expert) []
      { bodyEx with zipCode := some "123" } = .error .validation :=
  ⟨(tier_resolution (some .basic) [homeLoc] bodyEx).2.2.2.1 homeLoc rfl
      (by decide) (by decide) (by decide),
    (tier_resolution (some .expert) []
      { bodyEx with zipCode := some "123" }).1 "123" rfl (by decide)
      (by decide)⟩


/-- C5 counterexample: a successful search through the find-providers flow
under a usage-metered plan emits no usage-increment call and no audit row —
the handler contains no metering code. -/
theorem search_without_metering :
    isSuccess (findProvidersFlow (some .expert) [] dbDup bodyEx true).1 = true ∧
    usageCount (findProvidersFlow (some .expert) [] dbDup bodyEx true).2 = 0 ∧
    auditCount (findProvidersFlow (some .expert) [] dbDup bodyEx true).2 = 0 := by
  decide

theorem resolveSearchZip_no_meter (tier : Option Tier)
    (ln zc : Option String) (locs : List UserLocation) :
    ∀ e ∈ (resolveSearchZip tier ln zc locs).2, isMeterEffect e = false := by
  intro e he
  rcases tier with _ | t
  · unfold resolveSearchZip at he
    dsimp only at he
    split_ifs at he <;> simp at he
  · cases t with
    | basic =>
      unfold resolveSearchZip at he
      simp at he
      simp [he, isMeterEffect]
    | premium =>
      unfold resolveSearchZip at he
      dsimp only at he
      split_ifs at he
      · simp at he; simp [he, isMeterEffect]
      · simp at he
    | expert =>
      unfold resolveSearchZip at he
      dsimp only at he
      split_ifs at he <;> simp at he


/-- C5 amended: the find-providers endpoint itself performs no metering at
all; the metering logic lives in `getPrescriberDataWithSubscriptionCheck`,
where a successful call under a usage-based plan emits exactly one
usage-increment call and exactly one audit-log row and still returns the
data, while a failing usage-increment call is not caught locally: the
usage call is made but the audit row is never written. -/
theorem metering_behaviour :
    (∀ tier locs db b m,
      usageCount (findProvidersFlow tier locs db b m).2 = 0 ∧
      auditCount (findProvidersFlow tier locs db b m).2 = 0) ∧
    (∀ (env : PrescEnv) (plan : SubPlan),
      env.hasActiveSubscription = true →
      env.plan = some plan →
      plan.usage_based = true →
      (∃ rows, env.prescriberData = .ok rows) →
      (∃ sid, env.stripeSubscriptionId = some sid) →
      (∃ item, env.stripeItemId = .ok item) →
      env.usageRecordOk = .ok () →
      env.auditInsertOk = .ok () →
      usageCount (getPrescriberDataWithSubscriptionCheck env).2 = 1 ∧
      auditCount (getPrescriberDataWithSubscriptionCheck env).2 = 1 ∧
      (∃ data, (getPrescriberDataWithSubscriptionCheck env).1 = .ok data)) ∧
    (∀ (env : PrescEnv) (plan : SubPlan) (err : String),
      env.hasActiveSubscription = true →
      env.plan = some plan →
      plan.usage_based = true →
      (∃ rows, env.prescriberData = .ok rows) →
      (∃ sid, env.stripeSubscriptionId = some sid) →
      (∃ item, env.stripeItemId = .ok item) →
      env.usageRecordOk = .error err →
      usageCount (getPrescriberDataWithSubscriptionCheck env).2 = 1 ∧
      auditCount (getPrescriberDataWithSubscriptionCheck env).2 = 0) := by
  refine ⟨?_, ?_, ?_⟩
  · intro tier locs db b m
    have hno : ∀ e ∈ (findProvidersFlow tier locs db b m).2,
        isMeterEffect e = false := by
      intro e he
      unfold findProvidersFlow at he
      split_ifs at he
      · cases he
      · split at he
        · rcases List.mem_cons.mp he with he | he
          · simp [he, isMeterEffect]
          · exact resolveSearchZip_no_meter _ _ _ _ e he
        · split_ifs at he
          · rcases List.mem_cons.mp he with he | he
            · simp [he, isMeterEffect]
            · exact resolveSearchZip_no_meter _ _ _ _ e he
          · split at he
            · rcases List.mem_cons.mp he with he | he
              · simp [he, isMeterEffect]
              · rcases List.mem_append.mp he with he | he
                · exact resolveSearchZip_no_meter _ _ _ _ e he
                · simp at he; simp [he, isMeterEffect]
            · rcases List.mem_cons.mp he with he | he
              · simp [he, isMeterEffect]
              · rcases List.mem_append.mp he with he | he
                · exact resolveSearchZip_no_meter _ _ _ _ e he
                · simp at he
                  rcases he with he | he | he <;> simp [he, isMeterEffect]
    constructor
    · unfold usageCount
      rw [List.length_eq_zero, List.filter_eq_nil_iff]
      intro e he
      have := hno e he
      cases e <;> simp_all [isMeterEffect]
    · unfold auditCount
      rw [List.length_eq_zero, List.filter_eq_nil_iff]
      intro e he
      have := hno e he
      cases e <;> simp_all [isMeterEffect]
  · rintro env plan h1 h2 h3 ⟨rows, h4⟩ ⟨sid, h5⟩ ⟨item, h6⟩ h7 h8
    refine ⟨?_, ?_, ?_⟩ <;>
      simp [getPrescriberDataWithSubscriptionCheck, h1, h2, h3, h4, h5, h6,
        h7, h8, usageCount, auditCount, List.filter]
  · rintro env plan err h1 h2 h3 ⟨rows, h4⟩ ⟨sid, h5⟩ ⟨item, h6⟩ h7
    refine ⟨?_, ?_⟩ <;>
      simp [getPrescriberDataWithSubscriptionCheck, h1, h2, h3, h4, h5, h6,
        h7, usageCount, auditCount, List.filter]


/-- C5 witness: the metered success path on a concrete environment. -/
theorem metering_behaviour_witness :
    usageCount (getPrescriberDataWithSubscriptionCheck envOk).2 = 1 ∧
    auditCount (getPrescriberDataWithSubscriptionCheck envOk).2 = 1 :=
  ⟨(metering_behaviour.2.1 envOk { tier := "professional", usage_based := true }
      rfl rfl rfl ⟨[1, 2, 3], rfl⟩ ⟨"sub-1", rfl⟩ ⟨"si-1", rfl⟩ rfl rfl).1,
    (metering_behaviour.2.1 envOk { tier := "professional", usage_based := true }
      rfl rfl rfl ⟨[1, 2, 3], rfl⟩ ⟨"sub-1", rfl⟩ ⟨"si-1", rfl⟩ rfl rfl).2.1⟩

end MedConnect
